import Mathlib

/-!
Shallow embedding of the client-side session and identity lifecycle of the
repository: the authentication hook (signup, login, logout, changePassword,
loadSession) and the auto-provisioning initializer (initializeAdminUser).
Asynchrony is modelled by explicit state passing (only one continuation runs
at a time in the source event loop); randomness (minted session tokens) and
wall-clock time are explicit parameters; the cryptographic digest is an
explicit function parameter, since the source uses it only through equality
of outputs.
-/

namespace Auth

/-- Embedding of the JavaScript toLowerCase operation on one character:
ASCII upper-case letters (code points 65 to 90) map to the letter 32 code
points higher; every other character is unchanged. -/
def charToLower (c : Char) : Char :=
  if 65 ≤ c.toNat ∧ c.toNat ≤ 90 then Char.ofNat (c.toNat + 32) else c

/-- Embedding of the JavaScript toLowerCase operation on a string, applied
characterwise. The source calls it on emails only. -/
def strToLower (s : String) : String :=
  String.mk (s.data.map charToLower)

/-- Role enumeration of the AuthUser entity. -/
inductive Role where
  | user
  | admin
  | moderator
deriving Repr, DecidableEq

/-- AuthUser record, matching the AuthUser entity type of the source.
Timestamps are absolute milliseconds; optional fields are Option. -/
structure AuthUser where
  id : Nat
  email : String
  passwordHash : String
  name : String
  role : Role
  sessionToken : Option String
  isActive : String
  lastLogin : Option Nat
  profileImage : Option String
  created_at : Nat
  updated_at : Nat
deriving Repr, DecidableEq

/-- Result shape of signup, login and changePassword. -/
structure OpResult where
  success : Bool
  error : Option String
deriving Repr, DecidableEq

/-- Administrator configuration read from the environment. -/
structure AdminInfo where
  name : String
  email : String
deriving Repr, DecidableEq

/-- Result shape of initializeAdminUser. -/
structure InitResult where
  success : Bool
  user : Option AuthUser
  error : Option String
deriving Repr, DecidableEq

/-- Combined state: the persisted identity collection, the two session store
entries (auth_session_token as stored string, auth_session_expiry as parsed
absolute timestamp), the in-memory currentUser, and the persisted
admin-initialized flag. -/
structure AuthState where
  users : List AuthUser
  sessionToken : Option String
  sessionExpiry : Option Nat
  currentUser : Option AuthUser
  adminInitialized : Bool
deriving Repr, DecidableEq

/-- JavaScript truthiness of a nullable string: null and the empty string
are falsy, every other string is truthy. -/
def strTruthy : Option String → Bool
  | none => false
  | some t => t != ""

/-- Session expiration interval: 30 days in milliseconds. -/
def SESSION_EXPIRY_MS : Nat := 30 * 24 * 60 * 60 * 1000

/-- Session expiry timestamp: now plus 30 days. -/
def getSessionExpiry (now : Nat) : Nat := now + SESSION_EXPIRY_MS

/-- isSessionExpired from the source: true if the timestamp is absent, or
strictly earlier than the current time. -/
def isSessionExpired (expiryTimestamp : Option Nat) (now : Nat) : Bool :=
  match expiryTimestamp with
  | none => true
  | some t => decide (t < now)

/-- Modelled from the spec: the flexible entity repository (not under src)
assigns a fresh id on create; here one strictly larger than every stored id. -/
def freshId (users : List AuthUser) : Nat :=
  users.foldr (fun u m => max u.id m) 0 + 1

/-- Modelled from the spec: repository update applies a partial field update
to every record with the given id and leaves the others unchanged. -/
def updateUser (users : List AuthUser) (i : Nat) (f : AuthUser → AuthUser) :
    List AuthUser :=
  users.map (fun u => if u.id = i then f u else u)

/-- Modelled from the spec: repository get retrieves the record with the
given id, or absent. -/
def getUser (users : List AuthUser) (i : Nat) : Option AuthUser :=
  users.find? (fun u => u.id == i)

/-- loadSession from the source: read token and expiry from the session
store; if the expiry entry is truthy and expired, purge both entries and
clear currentUser; else if the token entry is truthy, look for an identity
whose current sessionToken equals it, adopting it as currentUser on a match
and purging both entries on a miss; else just clear currentUser. -/
def loadSession (s : AuthState) (now : Nat) : AuthState :=
  if s.sessionExpiry.isSome && isSessionExpired s.sessionExpiry now then
    { s with sessionToken := none, sessionExpiry := none, currentUser := none }
  else if strTruthy s.sessionToken then
    match s.users.find? (fun u => u.sessionToken == s.sessionToken) with
    | some user => { s with currentUser := some user }
    | none =>
      { s with sessionToken := none, sessionExpiry := none, currentUser := none }
  else
    { s with currentUser := none }

/-- signup from the source: reject when a stored identity matches the email
case-insensitively (checked twice, before hashing and immediately before the
write; in this sequential model both checks see the same list), else create
the identity with lowercased email, digest of the password, the minted
session token and active flag true, write both session store entries, and
adopt the new identity as currentUser. -/
def signup (digest : String → String) (s : AuthState)
    (email password name : String) (role : Role) (tok : String) (now : Nat) :
    AuthState × OpResult :=
  match s.users.find? (fun u => strToLower u.email == strToLower email) with
  | some _ => (s, ⟨false, some "User with this email already exists"⟩)
  | none =>
    let passwordHash := digest password
    match s.users.find? (fun u => strToLower u.email == strToLower email) with
    | some _ => (s, ⟨false, some "User with this email already exists"⟩)
    | none =>
      let newUser : AuthUser :=
        { id := freshId s.users
          email := strToLower email
          passwordHash := passwordHash
          name := name
          role := role
          sessionToken := some tok
          isActive := "true"
          lastLogin := some now
          profileImage := none
          created_at := now
          updated_at := now }
      ({ s with users := s.users ++ [newUser]
                sessionToken := some tok
                sessionExpiry := some (getSessionExpiry now)
                currentUser := some newUser },
       ⟨true, none⟩)

/-- login from the source: find an identity by case-insensitive email (fail
with the invalid-credentials message if none), fail with the deactivation
message unless the active flag is the string true, fail with the same
invalid-credentials message if the digest of the password differs from the
stored digest; on success store a minted token and last login on the
identity, write both session store entries, and re-fetch the record as
currentUser (keeping the previous currentUser if the re-fetch finds none). -/
def login (digest : String → String) (s : AuthState)
    (email password : String) (tok : String) (now : Nat) :
    AuthState × OpResult :=
  match s.users.find? (fun u => strToLower u.email == strToLower email) with
  | none => (s, ⟨false, some "Invalid email or password"⟩)
  | some user =>
    if user.isActive ≠ "true" then
      (s, ⟨false, some "Account is deactivated"⟩)
    else if user.passwordHash ≠ digest password then
      (s, ⟨false, some "Invalid email or password"⟩)
    else
      let users2 := updateUser s.users user.id
        (fun u => { u with sessionToken := some tok, lastLogin := some now })
      let refreshed := getUser users2 user.id
      ({ s with users := users2
                sessionToken := some tok
                sessionExpiry := some (getSessionExpiry now)
                currentUser :=
                  match refreshed with
                  | some u => some u
                  | none => s.currentUser },
       ⟨true, none⟩)

/-- logout from the source: when a currentUser exists, best-effort clear its
stored session token (a persistence failure, the updateFails flag, is
swallowed); then unconditionally remove both session store entries and clear
currentUser. Every path is total: the catch block swallows the only
possible throw. -/
def logout (s : AuthState) (updateFails : Bool) : AuthState :=
  let users2 :=
    match s.currentUser with
    | some cu =>
      if updateFails then s.users
      else updateUser s.users cu.id (fun u => { u with sessionToken := some "" })
    | none => s.users
  { s with users := users2, sessionToken := none, sessionExpiry := none,
           currentUser := none }

/-- changePassword from the source: fail when no currentUser; fail when the
digest of the given current password differs from the digest held on the
in-memory currentUser record; else persist the digest of the new password on
the identity with the currentUser id. The in-memory currentUser and the
stored session token are not touched. -/
def changePassword (digest : String → String) (s : AuthState)
    (currentPassword newPassword : String) : AuthState × OpResult :=
  match s.currentUser with
  | none => (s, ⟨false, some "No user logged in"⟩)
  | some cu =>
    if cu.passwordHash ≠ digest currentPassword then
      (s, ⟨false, some "Current password is incorrect"⟩)
    else
      ({ s with users := updateUser s.users cu.id
                  (fun u => { u with passwordHash := digest newPassword }) },
       ⟨true, none⟩)

/-- initializeAdminUser from the source: no-op success when the initialized
flag is set, when the admin configuration is absent, or when no identity
matches the configured email case-insensitively. Otherwise, when the matched
identity has a falsy session token, mint one and persist it together with a
last-login time; then write the resulting token and a fresh 30-day expiry
into the session store and set the initialized flag. -/
def initializeAdminUser (s : AuthState) (info : Option AdminInfo)
    (tok : String) (now : Nat) : AuthState × InitResult :=
  if s.adminInitialized then (s, ⟨true, none, none⟩)
  else
    match info with
    | none => (s, ⟨true, none, none⟩)
    | some a =>
      let normalizedEmail := strToLower a.email
      match s.users.find? (fun u => strToLower u.email == normalizedEmail) with
      | none => (s, ⟨true, none, none⟩)
      | some adminUser =>
        let ensured :=
          if strTruthy adminUser.sessionToken then (s.users, adminUser)
          else
            (updateUser s.users adminUser.id
               (fun u => { u with sessionToken := some tok, lastLogin := some now }),
             { adminUser with sessionToken := some tok })
        ({ s with users := ensured.1
                  sessionToken := ensured.2.sessionToken
                  sessionExpiry := some (getSessionExpiry now)
                  adminInitialized := true },
         ⟨true, some ensured.2, none⟩)

/-- Concrete active identity used by witnesses. -/
def activeUserFix : AuthUser :=
  { id := 1, email := "a@x.com", passwordHash := "pw", name := "A",
    role := Role.user, sessionToken := some "tokA", isActive := "true",
    lastLogin := none, profileImage := none, created_at := 0, updated_at := 0 }

/-- Concrete deactivated identity used by witnesses and counterexamples. -/
def inactiveUserFix : AuthUser :=
  { activeUserFix with
    id := 2, email := "b@x.com", isActive := "false", sessionToken := none }

/-- Concrete identity whose stored session token is the empty string, the
value the logout path persists. -/
def emptyTokenUserFix : AuthUser :=
  { activeUserFix with id := 3, email := "c@x.com", sessionToken := some "" }

/-- Concrete administrator identity without a session token. -/
def noTokenAdminFix : AuthUser :=
  { activeUserFix with
    id := 4, email := "adm@x.com", role := Role.admin, sessionToken := none }

/-- Concrete state holding one active and one deactivated identity. -/
def baseStateFix : AuthState :=
  { users := [activeUserFix, inactiveUserFix], sessionToken := none,
    sessionExpiry := none, currentUser := none, adminInitialized := false }

/-- Concrete state with an expired session entry. -/
def expiredStateFix : AuthState :=
  { baseStateFix with sessionToken := some "tokA", sessionExpiry := some 10 }

/-- Concrete state storing an empty-string token matching no identity. -/
def emptyTokenStateFix : AuthState :=
  { users := [], sessionToken := some "", sessionExpiry := some 1000,
    currentUser := none, adminInitialized := false }

/-- Concrete state storing an empty-string token that equals the current
session token of a stored identity. -/
def emptyTokenMatchStateFix : AuthState :=
  { users := [emptyTokenUserFix], sessionToken := some "",
    sessionExpiry := none, currentUser := none, adminInitialized := false }

/-- Concrete state storing an unexpired nonempty token matching no identity. -/
def orphanTokenStateFix : AuthState :=
  { users := [], sessionToken := some "tokZ", sessionExpiry := some 1000,
    currentUser := none, adminInitialized := false }

/-- Concrete state storing a nonempty token equal to the current session
token of a stored identity, with no expiry entry. -/
def tokenMatchStateFix : AuthState :=
  { users := [activeUserFix], sessionToken := some "tokA",
    sessionExpiry := none, currentUser := none, adminInitialized := false }

/-- Concrete authenticated state used by the changePassword witness. -/
def cpStateFix : AuthState :=
  { users := [activeUserFix], sessionToken := some "tokA",
    sessionExpiry := none, currentUser := some activeUserFix,
    adminInitialized := false }

/-- Concrete administrator configuration. -/
def adminInfoFix : AdminInfo := { name := "Admin", email := "ADM@X.com" }

/-- Concrete uninitialized state holding the administrator identity. -/
def adminStateFix : AuthState :=
  { users := [noTokenAdminFix], sessionToken := none, sessionExpiry := none,
    currentUser := none, adminInitialized := false }

/-- Char.ofNat is left-inverse to Char.toNat on the basic plane. -/
theorem charOfNat_toNat {n : Nat} (h : n < 55296) : (Char.ofNat n).toNat = n := by
  rw [Char.ofNat, dif_pos (Or.inl h)]
  simp [Char.ofNatAux, Char.toNat, UInt32.toNat, BitVec.toNat_ofNatLt]

/-- Lowercasing a character twice equals lowercasing it once. -/
theorem charToLower_idem (c : Char) : charToLower (charToLower c) = charToLower c := by
  unfold charToLower
  by_cases h : 65 ≤ c.toNat ∧ c.toNat ≤ 90
  · rw [if_pos h]
    have hv : (Char.ofNat (c.toNat + 32)).toNat = c.toNat + 32 :=
      charOfNat_toNat (by omega)
    rw [if_neg]
    rw [hv]
    omega
  · rw [if_neg h, if_neg h]

/-- Lowercasing a string twice equals lowercasing it once. -/
theorem strToLower_idem (s : String) : strToLower (strToLower s) = strToLower s := by
  unfold strToLower
  simp only [List.map_map]
  apply congrArg
  apply List.map_congr_left
  intro a _
  exact charToLower_idem a

/-- Every stored id is strictly below the fresh id. -/
theorem id_lt_freshId (users : List AuthUser) (u : AuthUser) (hu : u ∈ users) :
    u.id < freshId users := by
  unfold freshId
  have : u.id ≤ users.foldr (fun v m => max v.id m) 0 := by
    induction users with
    | nil => cases hu
    | cons w ws ih =>
      rw [List.foldr_cons]
      cases hu with
      | head => exact le_max_left _ _
      | tail _ h => exact le_trans (ih h) (le_max_right _ _)
  omega

/-- C3: for every session store state whose expiry entry is present and
strictly earlier than the current time, loadSession removes both session
store entries, sets currentUser to none, and settles unauthenticated,
regardless of whether the stored token matches an identity. -/
theorem loadSession_expired_purges_session (s : AuthState) (now e : Nat)
    (hexp : s.sessionExpiry = some e) (hlt : e < now) :
    loadSession s now =
      { s with sessionToken := none, sessionExpiry := none,
               currentUser := none } ∧
    (loadSession s now).currentUser.isSome = false := by
  have h1 : loadSession s now =
      { s with sessionToken := none, sessionExpiry := none,
               currentUser := none } := by
    unfold loadSession
    rw [hexp]
    simp [isSessionExpired, hlt]
  exact ⟨h1, by rw [h1]; rfl⟩

/-- Witness for C3 at a concrete expired state. -/
theorem loadSession_expired_purges_session_witness :
    loadSession expiredStateFix 11 =
      { expiredStateFix with sessionToken := none, sessionExpiry := none,
                             currentUser := none } ∧
    (loadSession expiredStateFix 11).currentUser.isSome = false :=
  loadSession_expired_purges_session expiredStateFix 11 10 rfl (by decide)

/-- C7: logout is a total function of the state (the one fallible step is
wrapped and swallowed in the source) and, for every state, including an
absent currentUser and including a persistence failure while clearing the
stored token, it removes both session store entries and clears currentUser. -/
theorem logout_always_clears_local_session (s : AuthState) (updateFails : Bool) :
    (logout s updateFails).sessionToken = none ∧
    (logout s updateFails).sessionExpiry = none ∧
    (logout s updateFails).currentUser = none := by
  unfold logout
  exact ⟨rfl, rfl, rfl⟩

/-- C10: the active-flag check precedes password verification: when the
identity found by case-insensitive email has an active flag other than the
string true, login fails with the deactivation message for every password,
including passwords whose digest does not match the stored digest. -/
theorem login_deactivated_before_password (digest : String → String)
    (s : AuthState) (email password tok : String) (now : Nat) (u : AuthUser)
    (hfind : s.users.find? (fun v => strToLower v.email == strToLower email) = some u)
    (hact : u.isActive ≠ "true") :
    (login digest s email password tok now).2 =
      ⟨false, some "Account is deactivated"⟩ := by
  unfold login
  simp only [hfind]
  rw [if_pos hact]

/-- Witness for C10: a deactivated identity rejects a wrong password with
the deactivation message. -/
theorem login_deactivated_before_password_witness :
    (login (fun p => p) baseStateFix "B@X.com" "wrong" "t" 5).2 =
      ⟨false, some "Account is deactivated"⟩ :=
  login_deactivated_before_password (fun p => p) baseStateFix "B@X.com" "wrong"
    "t" 5 inactiveUserFix (by decide) (by decide)

/-- C2: signup with an email equal to the email of a stored identity up to
letter case fails with the duplicate message and leaves the whole state,
identity records included, unchanged. -/
theorem signup_case_insensitive_duplicate (digest : String → String)
    (s : AuthState) (email password nm : String) (role : Role)
    (tok : String) (now : Nat) (u : AuthUser) (hu : u ∈ s.users)
    (hmatch : strToLower u.email = strToLower email) :
    signup digest s email password nm role tok now =
      (s, ⟨false, some "User with this email already exists"⟩) := by
  have hsome :
      (s.users.find? (fun v => strToLower v.email == strToLower email)).isSome := by
    rw [List.find?_isSome]
    exact ⟨u, hu, by simp [hmatch]⟩
  obtain ⟨v, hv⟩ := Option.isSome_iff_exists.mp hsome
  unfold signup
  simp only [hv]

/-- Witness for C2: signup with an upper-case variant of a stored email is
rejected and creates nothing. -/
theorem signup_case_insensitive_duplicate_witness :
    signup (fun p => p) baseStateFix "A@X.COM" "pw2" "N" Role.user "t" 5 =
      (baseStateFix, ⟨false, some "User with this email already exists"⟩) :=
  signup_case_insensitive_duplicate (fun p => p) baseStateFix "A@X.COM" "pw2"
    "N" Role.user "t" 5 activeUserFix (by decide) (by decide)

/-- C1 counterexample: at a stored deactivated identity, login with its
email and a password whose digest differs from the stored digest answers
the deactivation message, while login with an email matching no identity
answers the invalid-credentials message, so the two results differ. -/
theorem login_error_message_uniformity_counterexample :
    baseStateFix.users.find?
      (fun v => strToLower v.email == strToLower "b@x.com") = some inactiveUserFix ∧
    inactiveUserFix.passwordHash ≠ (fun p => p) "wrong" ∧
    baseStateFix.users.find?
      (fun v => strToLower v.email == strToLower "nobody@x.com") = none ∧
    (login (fun p => p) baseStateFix "b@x.com" "wrong" "t" 5).2 =
      ⟨false, some "Account is deactivated"⟩ ∧
    (login (fun p => p) baseStateFix "nobody@x.com" "wrong" "t" 5).2 =
      ⟨false, some "Invalid email or password"⟩ ∧
    (login (fun p => p) baseStateFix "b@x.com" "wrong" "t" 5).2 ≠
      (login (fun p => p) baseStateFix "nobody@x.com" "wrong" "t" 5).2 := by
  decide

/-- C1 amended: for every stored identity whose active flag is the string
true, login with its email and a password whose digest differs from the
stored digest answers exactly the same invalid-credentials message as login
with an email matching no stored identity, revealing nothing about which
check failed. -/
theorem login_wrong_password_same_error_as_unknown_email
    (digest : String → String) (s : AuthState)
    (goodEmail badEmail password tok : String) (now : Nat) (u : AuthUser)
    (hfind : s.users.find? (fun v => strToLower v.email == strToLower goodEmail) = some u)
    (hact : u.isActive = "true")
    (hpw : u.passwordHash ≠ digest password)
    (hmiss : s.users.find? (fun v => strToLower v.email == strToLower badEmail) = none) :
    (login digest s goodEmail password tok now).2 =
      ⟨false, some "Invalid email or password"⟩ ∧
    (login digest s badEmail password tok now).2 =
      ⟨false, some "Invalid email or password"⟩ := by
  constructor
  · unfold login
    simp only [hfind]
    rw [if_neg (fun hne => hne hact), if_pos hpw]
  · unfold login
    simp only [hmiss]

/-- Witness for the amended C1 at a concrete active identity. -/
theorem login_wrong_password_same_error_as_unknown_email_witness :
    (login (fun p => p) baseStateFix "A@X.com" "wrong" "t" 5).2 =
      ⟨false, some "Invalid email or password"⟩ ∧
    (login (fun p => p) baseStateFix "nobody@x.com" "wrong" "t" 5).2 =
      ⟨false, some "Invalid email or password"⟩ :=
  login_wrong_password_same_error_as_unknown_email (fun p => p) baseStateFix
    "A@X.com" "nobody@x.com" "wrong" "t" 5 activeUserFix
    (by decide) (by decide) (by decide) (by decide)

/-- C4 counterexample: at a stored empty-string token that is unexpired and
equals no identitys current session token, loadSession leaves both session
store entries in place instead of purging them. -/
theorem loadSession_orphan_purge_counterexample :
    (emptyTokenStateFix.sessionExpiry.isSome &&
      isSessionExpired emptyTokenStateFix.sessionExpiry 500) = false ∧
    emptyTokenStateFix.sessionToken = some "" ∧
    emptyTokenStateFix.users = [] ∧
    (loadSession emptyTokenStateFix 500).sessionToken = some "" ∧
    (loadSession emptyTokenStateFix 500).sessionExpiry = some 1000 := by
  decide

/-- C4 amended: for every session store state whose stored token is nonempty,
unexpired, and equal to no identitys current session token, loadSession
removes both entries and settles unauthenticated; moreover after any
completed loadSession, a nonempty token still present in the session store
matches the current session token of some stored identity. -/
theorem loadSession_purges_orphan_nonempty_token (s : AuthState) (now : Nat)
    (tok : String)
    (hval : (s.sessionExpiry.isSome && isSessionExpired s.sessionExpiry now) = false)
    (htok : s.sessionToken = some tok) (hne : tok ≠ "")
    (hmiss : s.users.find? (fun u => u.sessionToken == some tok) = none) :
    (loadSession s now =
      { s with sessionToken := none, sessionExpiry := none,
               currentUser := none } ∧
     (loadSession s now).currentUser.isSome = false) ∧
    ∀ (s2 : AuthState) (now2 : Nat) (t2 : String),
      (loadSession s2 now2).sessionToken = some t2 → t2 ≠ "" →
      ∃ u ∈ (loadSession s2 now2).users, u.sessionToken = some t2 := by
  have h1 : loadSession s now =
      { s with sessionToken := none, sessionExpiry := none,
               currentUser := none } := by
    unfold loadSession
    rw [htok]
    simp only [hval, Bool.false_eq_true, if_false]
    have hs : strTruthy (some tok) = true := by
      simp [strTruthy, hne]
    rw [if_pos hs]
    simp only [hmiss]
  refine ⟨⟨h1, by rw [h1]; rfl⟩, ?_⟩
  intro s2 now2 t2 htok2 hne2
  by_cases hc : (s2.sessionExpiry.isSome && isSessionExpired s2.sessionExpiry now2) = true
  · have hres : loadSession s2 now2 =
        { s2 with sessionToken := none, sessionExpiry := none,
                  currentUser := none } := by
      unfold loadSession
      rw [if_pos hc]
    rw [hres] at htok2
    simp at htok2
  · by_cases hs : strTruthy s2.sessionToken = true
    · cases hfind2 : s2.users.find? (fun u => u.sessionToken == s2.sessionToken) with
      | none =>
        have hres : loadSession s2 now2 =
            { s2 with sessionToken := none, sessionExpiry := none,
                      currentUser := none } := by
          unfold loadSession
          rw [if_neg hc, if_pos hs]
          simp only [hfind2]
        rw [hres] at htok2
        simp at htok2
      | some u =>
        have hres : loadSession s2 now2 = { s2 with currentUser := some u } := by
          unfold loadSession
          rw [if_neg hc, if_pos hs]
          simp only [hfind2]
        rw [hres] at htok2 ⊢
        simp only at htok2
        have hmem := List.mem_of_find?_eq_some hfind2
        have hp := List.find?_some hfind2
        simp only [beq_iff_eq] at hp
        exact ⟨u, hmem, by rw [hp]; exact htok2⟩
    · have hres : loadSession s2 now2 = { s2 with currentUser := none } := by
        unfold loadSession
        rw [if_neg hc, if_neg hs]
      rw [hres] at htok2
      simp only at htok2
      rw [htok2] at hs
      simp [strTruthy, hne2] at hs

/-- Witness for the amended C4 at a concrete orphan nonempty token. -/
theorem loadSession_purges_orphan_nonempty_token_witness :
    loadSession orphanTokenStateFix 500 =
      { orphanTokenStateFix with sessionToken := none, sessionExpiry := none,
                                 currentUser := none } :=
  (loadSession_purges_orphan_nonempty_token orphanTokenStateFix 500 "tokZ"
    (by decide) rfl (by decide) (by decide)).1.1

/-- C9 counterexample: with the expiry entry absent and a stored empty
token equal to the current session token of a stored identity, loadSession
settles unauthenticated instead of adopting that identity. -/
theorem loadSession_absent_expiry_counterexample :
    emptyTokenMatchStateFix.sessionExpiry = none ∧
    emptyTokenMatchStateFix.sessionToken = some "" ∧
    emptyTokenUserFix ∈ emptyTokenMatchStateFix.users ∧
    emptyTokenUserFix.sessionToken = emptyTokenMatchStateFix.sessionToken ∧
    (loadSession emptyTokenMatchStateFix 100).currentUser = none := by
  decide

/-- C9 amended: with the expiry entry absent and a stored nonempty token
whose identity lookup succeeds, loadSession settles authenticated with that
identity, although isSessionExpired answers true on an absent timestamp. -/
theorem loadSession_absent_expiry_still_authenticates (s : AuthState)
    (now : Nat) (tok : String) (u : AuthUser)
    (hexp : s.sessionExpiry = none)
    (htok : s.sessionToken = some tok) (hne : tok ≠ "")
    (hfind : s.users.find? (fun v => v.sessionToken == some tok) = some u) :
    loadSession s now = { s with currentUser := some u } ∧
    (loadSession s now).currentUser.isSome = true ∧
    isSessionExpired s.sessionExpiry now = true := by
  have h1 : loadSession s now = { s with currentUser := some u } := by
    unfold loadSession
    rw [hexp, htok]
    have hs : strTruthy (some tok) = true := by
      simp [strTruthy, hne]
    simp only [Option.isSome_none, Bool.false_and, Bool.false_eq_true, if_false]
    rw [if_pos hs]
    simp only [hfind]
  refine ⟨h1, by rw [h1]; rfl, by rw [hexp]; rfl⟩

/-- Witness for the amended C9 at a concrete matching nonempty token. -/
theorem loadSession_absent_expiry_still_authenticates_witness :
    loadSession tokenMatchStateFix 100 =
      { tokenMatchStateFix with currentUser := some activeUserFix } :=
  (loadSession_absent_expiry_still_authenticates tokenMatchStateFix 100 "tokA"
    activeUserFix rfl rfl (by decide) (by decide)).1

/-- Lookup by id after an in-place update of a freshly appended record. -/
theorem getUser_updateUser_append (users : List AuthUser) (nu : AuthUser)
    (f : AuthUser → AuthUser) (hfresh : ∀ w ∈ users, w.id ≠ nu.id)
    (hid : (f nu).id = nu.id) :
    getUser (updateUser (users ++ [nu]) nu.id f) nu.id = some (f nu) := by
  unfold getUser updateUser
  rw [List.map_append, List.find?_append]
  have h1 : (users.map (fun u => if u.id = nu.id then f u else u)).find?
      (fun u => u.id == nu.id) = none := by
    rw [List.find?_eq_none]
    intro x hx
    rw [List.mem_map] at hx
    obtain ⟨w, hw, rfl⟩ := hx
    rw [if_neg (hfresh w hw)]
    simp [hfresh w hw]
  rw [h1, Option.none_or]
  simp only [List.map_cons, List.map_nil]
  rw [List.find?_cons_of_pos _ (by simp [hid])]
  simp

/-- A find by case-insensitive email commutes with a map that does not
touch the email field. -/
theorem find?_email_map (users : List AuthUser) (f : AuthUser → AuthUser)
    (hem : ∀ u, (f u).email = u.email) (x : String) :
    (users.map f).find? (fun v => strToLower v.email == strToLower x) =
      (users.find? (fun v => strToLower v.email == strToLower x)).map f := by
  have hp : (fun v => strToLower v.email == strToLower x) ∘ f =
      (fun v => strToLower v.email == strToLower x) :=
    funext fun u => by simp [Function.comp, hem u]
  rw [List.find?_map, hp]

/-- Reduction of login on a successful lookup with matching digest. -/
theorem login_success_eq (digest : String → String) (s : AuthState)
    (email password tok : String) (now : Nat) (u : AuthUser)
    (hfind : s.users.find? (fun v => strToLower v.email == strToLower email) = some u)
    (hact : u.isActive = "true") (hpw : u.passwordHash = digest password) :
    login digest s email password tok now =
      ({ s with
          users := updateUser s.users u.id
            (fun w => { w with sessionToken := some tok, lastLogin := some now })
          sessionToken := some tok
          sessionExpiry := some (getSessionExpiry now)
          currentUser :=
            match getUser (updateUser s.users u.id
              (fun w => { w with sessionToken := some tok, lastLogin := some now }))
              u.id with
            | some w => some w
            | none => s.currentUser },
       ⟨true, none⟩) := by
  unfold login
  simp only [hfind]
  rw [if_neg (fun h => h hact), if_neg (fun h => h hpw)]

/-- C5: after a successful signup, the stored email of the created identity
is the lowercase normalization of the given email, and an immediately
following login with any letter-case variant of that email and the same
password succeeds and resolves to an identity with the same id. -/
theorem signup_then_login_same_identity (digest : String → String)
    (s : AuthState) (email password nm : String) (role : Role)
    (tok : String) (now : Nat) (e2 tok2 : String) (now2 : Nat)
    (hfree : s.users.find? (fun v => strToLower v.email == strToLower email) = none)
    (hvar : strToLower e2 = strToLower email) :
    (signup digest s email password nm role tok now).2 = ⟨true, none⟩ ∧
    ∃ nu, (signup digest s email password nm role tok now).1.currentUser = some nu ∧
      nu.email = strToLower email ∧
      nu ∈ (signup digest s email password nm role tok now).1.users ∧
      (login digest (signup digest s email password nm role tok now).1
        e2 password tok2 now2).2 = ⟨true, none⟩ ∧
      ∃ v, (login digest (signup digest s email password nm role tok now).1
          e2 password tok2 now2).1.currentUser = some v ∧ v.id = nu.id := by
  set nu : AuthUser :=
    ⟨freshId s.users, strToLower email, digest password, nm, role, some tok,
     "true", some now, none, now, now⟩ with hnu
  set s1 : AuthState :=
    ⟨s.users ++ [nu], some tok, some (getSessionExpiry now), some nu,
     s.adminInitialized⟩ with hs1
  have hsu : signup digest s email password nm role tok now = (s1, ⟨true, none⟩) := by
    unfold signup
    rw [hfree]
  rw [hsu]
  have hus : s1.users = s.users ++ [nu] := by rw [hs1]
  have hfind1 : s1.users.find? (fun v => strToLower v.email == strToLower e2) =
      some nu := by
    rw [hus, hvar, List.find?_append, hfree, Option.none_or]
    exact List.find?_cons_of_pos _ (by simp [hnu, strToLower_idem])
  have hlog := login_success_eq digest s1 e2 password tok2 now2 nu hfind1
    (by rw [hnu]) (by rw [hnu])
  have hget : getUser (updateUser s1.users nu.id
      (fun w => { w with sessionToken := some tok2, lastLogin := some now2 }))
      nu.id = some { nu with sessionToken := some tok2, lastLogin := some now2 } := by
    rw [hus]
    exact getUser_updateUser_append s.users nu _
      (fun w hw => Nat.ne_of_lt (id_lt_freshId s.users w hw)) rfl
  refine ⟨rfl, nu, by rw [hs1], by rw [hnu], by rw [hus]; simp, by rw [hlog], ?_⟩
  refine ⟨{ nu with sessionToken := some tok2, lastLogin := some now2 }, ?_, rfl⟩
  rw [hlog]
  simp only
  rw [hget]

/-- Witness for C5: signup with a mixed-case email followed by login with
another case variant of it. -/
theorem signup_then_login_same_identity_witness :
    (signup (fun p => p) baseStateFix "New@X.com" "npw" "N" Role.user "tN" 20).2 =
      ⟨true, none⟩ ∧
    ∃ nu,
      (signup (fun p => p) baseStateFix "New@X.com" "npw" "N" Role.user "tN" 20).1.currentUser =
        some nu ∧
      nu.email = strToLower "New@X.com" ∧
      nu ∈ (signup (fun p => p) baseStateFix "New@X.com" "npw" "N" Role.user "tN" 20).1.users ∧
      (login (fun p => p)
        (signup (fun p => p) baseStateFix "New@X.com" "npw" "N" Role.user "tN" 20).1
        "NEW@x.COM" "npw" "tL" 30).2 = ⟨true, none⟩ ∧
      ∃ v, (login (fun p => p)
          (signup (fun p => p) baseStateFix "New@X.com" "npw" "N" Role.user "tN" 20).1
          "NEW@x.COM" "npw" "tL" 30).1.currentUser = some v ∧ v.id = nu.id :=
  signup_then_login_same_identity (fun p => p) baseStateFix "New@X.com" "npw"
    "N" Role.user "tN" 20 "NEW@x.COM" "tL" 30 (by decide) (by decide)

/-- C6: for an authenticated user whose current password digest matches the
stored digest, changePassword succeeds, rewrites exactly the password digest
of the records carrying the currentUser id while every other field, the
session token included, stays unchanged, and afterwards login with the new
password succeeds while login with the old password fails with the
invalid-credentials message (the old and new digests assumed distinct, as
otherwise the two passwords are indistinguishable). -/
theorem changePassword_rotates_credentials (digest : String → String)
    (s : AuthState) (currentPassword newPassword : String)
    (tok2 : String) (now2 : Nat) (tok3 : String) (now3 : Nat)
    (cu r : AuthUser)
    (hcu : s.currentUser = some cu)
    (hpw : cu.passwordHash = digest currentPassword)
    (hfind : s.users.find? (fun v => strToLower v.email == strToLower cu.email) = some r)
    (hid : r.id = cu.id)
    (hact : r.isActive = "true")
    (hneq : digest newPassword ≠ digest currentPassword) :
    (changePassword digest s currentPassword newPassword).2 = ⟨true, none⟩ ∧
    (changePassword digest s currentPassword newPassword).1.users =
      s.users.map (fun u =>
        if u.id = cu.id then { u with passwordHash := digest newPassword }
        else u) ∧
    (changePassword digest s currentPassword newPassword).1.users.find?
      (fun v => strToLower v.email == strToLower cu.email) =
      some { r with passwordHash := digest newPassword } ∧
    (login digest (changePassword digest s currentPassword newPassword).1
      cu.email newPassword tok2 now2).2 = ⟨true, none⟩ ∧
    (login digest (changePassword digest s currentPassword newPassword).1
      cu.email currentPassword tok3 now3).2 =
      ⟨false, some "Invalid email or password"⟩ := by
  have hcp : changePassword digest s currentPassword newPassword =
      ({ s with
          users := updateUser s.users cu.id
            (fun u => { u with passwordHash := digest newPassword }) },
       ⟨true, none⟩) := by
    unfold changePassword
    simp only [hcu]
    rw [if_neg (fun h => h hpw)]
  rw [hcp]
  have hfmap : (updateUser s.users cu.id
        (fun u => { u with passwordHash := digest newPassword })).find?
      (fun v => strToLower v.email == strToLower cu.email) =
      some { r with passwordHash := digest newPassword } := by
    unfold updateUser
    rw [find?_email_map s.users _ (fun u => by by_cases h : u.id = cu.id <;> simp [h])]
    rw [hfind, Option.map_some']
    rw [if_pos hid]
  refine ⟨rfl, rfl, ?_, ?_, ?_⟩
  · simp only
    exact hfmap
  · unfold login
    simp only [hfmap]
    rw [if_neg (fun h => h hact), if_neg (fun h => h rfl)]
  · unfold login
    simp only [hfmap]
    rw [if_neg (fun h => h hact), if_pos hneq]

/-- Witness for C6 rotating the password of a concrete authenticated user. -/
theorem changePassword_rotates_credentials_witness :
    (login (fun p => p) (changePassword (fun p => p) cpStateFix "pw" "np").1
      "a@x.com" "np" "t2" 7).2 = ⟨true, none⟩ ∧
    (login (fun p => p) (changePassword (fun p => p) cpStateFix "pw" "np").1
      "a@x.com" "pw" "t3" 8).2 = ⟨false, some "Invalid email or password"⟩ := by
  have h := changePassword_rotates_credentials (fun p => p) cpStateFix "pw" "np"
    "t2" 7 "t3" 8 activeUserFix activeUserFix rfl rfl (by decide) rfl rfl
    (by decide)
  exact ⟨h.2.2.2.1, h.2.2.2.2⟩

/-- Reduction of initializeAdminUser when the initialized flag is set. -/
theorem initializeAdminUser_noop_of_initialized (s : AuthState)
    (info : Option AdminInfo) (tok : String) (now : Nat)
    (h : s.adminInitialized = true) :
    initializeAdminUser s info tok now = (s, ⟨true, none, none⟩) := by
  unfold initializeAdminUser
  rw [if_pos h]

/-- C8: initializeAdminUser is a no-op success when the initialized flag is
set, when the admin configuration is absent, or when no identity matches the
configured email; otherwise it ensures the matched identity carries a session
token, minting and persisting one only when the stored one is falsy, writes
the resulting token and a fresh 30-day expiry into the session store, sets
the initialized flag, and a second run on the resulting state is a no-op. -/
theorem initializeAdminUser_behavior (s : AuthState) (info : Option AdminInfo)
    (tok : String) (now : Nat) :
    (s.adminInitialized = true →
      initializeAdminUser s info tok now = (s, ⟨true, none, none⟩)) ∧
    (info = none →
      initializeAdminUser s info tok now = (s, ⟨true, none, none⟩)) ∧
    (∀ a, info = some a →
      s.users.find? (fun u => strToLower u.email == strToLower a.email) = none →
      initializeAdminUser s info tok now = (s, ⟨true, none, none⟩)) ∧
    (∀ a u, s.adminInitialized = false → info = some a →
      s.users.find? (fun u => strToLower u.email == strToLower a.email) = some u →
      (initializeAdminUser s info tok now).1.adminInitialized = true ∧
      (initializeAdminUser s info tok now).1.sessionExpiry =
        some (getSessionExpiry now) ∧
      (strTruthy u.sessionToken = true →
        (initializeAdminUser s info tok now).1.sessionToken = u.sessionToken ∧
        (initializeAdminUser s info tok now).1.users = s.users) ∧
      (strTruthy u.sessionToken = false →
        (initializeAdminUser s info tok now).1.sessionToken = some tok ∧
        ∀ v ∈ (initializeAdminUser s info tok now).1.users,
          v.id = u.id → v.sessionToken = some tok) ∧
      (∀ info2 tok2 now2,
        initializeAdminUser (initializeAdminUser s info tok now).1 info2 tok2 now2 =
          ((initializeAdminUser s info tok now).1, ⟨true, none, none⟩))) := by
  refine ⟨fun hi => initializeAdminUser_noop_of_initialized s info tok now hi,
    ?_, ?_, ?_⟩
  · intro hn
    subst hn
    by_cases hi : s.adminInitialized = true
    · exact initializeAdminUser_noop_of_initialized s none tok now hi
    · unfold initializeAdminUser
      rw [if_neg hi]
  · intro a ha hmiss
    subst ha
    by_cases hi : s.adminInitialized = true
    · exact initializeAdminUser_noop_of_initialized s (some a) tok now hi
    · unfold initializeAdminUser
      rw [if_neg hi]
      simp only [hmiss]
  · intro a u hflag ha hfind
    subst ha
    have hni : ¬ s.adminInitialized = true := by rw [hflag]; exact Bool.false_ne_true
    by_cases htr : strTruthy u.sessionToken = true
    · have hres : initializeAdminUser s (some a) tok now =
          ({ s with sessionToken := u.sessionToken,
                    sessionExpiry := some (getSessionExpiry now),
                    adminInitialized := true },
           ⟨true, some u, none⟩) := by
        unfold initializeAdminUser
        rw [if_neg hni]
        simp only [hfind]
        rw [if_pos htr]
      rw [hres]
      refine ⟨rfl, rfl, fun _ => ⟨rfl, rfl⟩, ?_, ?_⟩
      · intro hf
        rw [htr] at hf
        cases hf
      · intro info2 tok2 now2
        exact initializeAdminUser_noop_of_initialized _ info2 tok2 now2 rfl
    · have hfb : strTruthy u.sessionToken = false := by
        cases hx : strTruthy u.sessionToken
        · rfl
        · exact absurd hx htr
      have hres : initializeAdminUser s (some a) tok now =
          ({ s with
              users := updateUser s.users u.id
                (fun w => { w with sessionToken := some tok,
                                   lastLogin := some now }),
              sessionToken := some tok,
              sessionExpiry := some (getSessionExpiry now),
              adminInitialized := true },
           ⟨true, some { u with sessionToken := some tok }, none⟩) := by
        unfold initializeAdminUser
        rw [if_neg hni]
        simp only [hfind]
        rw [if_neg (by rw [hfb]; exact Bool.false_ne_true)]
      rw [hres]
      refine ⟨rfl, rfl, ?_, fun _ => ⟨rfl, ?_⟩, ?_⟩
      · intro ht
        rw [hfb] at ht
        cases ht
      · intro v hv hvid
        simp only at hv
        unfold updateUser at hv
        rw [List.mem_map] at hv
        obtain ⟨w, hw, rfl⟩ := hv
        by_cases hwid : w.id = u.id
        · rw [if_pos hwid]
        · rw [if_neg hwid] at hvid ⊢
          exact absurd hvid hwid
      · intro info2 tok2 now2
        exact initializeAdminUser_noop_of_initialized _ info2 tok2 now2 rfl

/-- Witness for C8 provisioning a concrete administrator lacking a token. -/
theorem initializeAdminUser_behavior_witness :
    (initializeAdminUser adminStateFix (some adminInfoFix) "tk" 50).1.sessionToken =
      some "tk" ∧
    (initializeAdminUser adminStateFix (some adminInfoFix) "tk" 50).1.adminInitialized =
      true := by
  have h := (initializeAdminUser_behavior adminStateFix (some adminInfoFix)
    "tk" 50).2.2.2 adminInfoFix noTokenAdminFix rfl rfl (by decide)
  exact ⟨(h.2.2.2.1 (by decide)).1, h.1⟩

end Auth
